import Mathlib

/-
Verification of the Hailo campus ride-hailing client.

The development shallowly embeds the parts of the code that the checked
properties talk about:

* the 32-bit string hash and pseudo-geocoder
  (`calculateDestinationCoordinates` in the rider dashboard),
* the haversine fare estimator (`calculateFare`, two variants),
* the rider request-ride flow (`requestRide` in the rider actions module
  and the two `handleRequestRide` dashboard variants),
* the driver accept/decline actions (`driverActions.ts`),
* the toast store reducer (`use-toast`).

JavaScript numbers are embedded as exact rationals or reals; the bitwise
operations of the hash, which coerce to 32-bit signed integers, are
embedded over `Int` with explicit wrapping.
-/

namespace Hailo

/-! ### JavaScript 32-bit integer semantics -/

/-- Wrap an integer to a 32-bit signed integer (two's complement), the
effect of JavaScript's `| 0`, `& `-style coercions (`hash = hash & hash`)
and of the 32-bit shift operators. -/
def int32 (x : Int) : Int := (x + 2 ^ 31) % 2 ^ 32 - 2 ^ 31

/-- The unsigned 32-bit representation of an integer (its low 32 bits). -/
def toUint32 (x : Int) : Nat := (x % 2 ^ 32).toNat

/-- JavaScript `h << 5`: both the operand coercion and the result are
32-bit signed. -/
def jsShl5 (h : Int) : Int := int32 (int32 h * 32)

/-- JavaScript's remainder operator `%` (truncated, takes the sign of the
dividend) for a positive divisor. -/
def jsRem (a b : Int) : Int := if 0 ≤ a then a % b else -(-a % b)

/-- `Math.abs` on an integer-valued number, as a natural number. -/
def jsAbs (a : Int) : Nat := a.natAbs

/-! ### Pseudo-geocoder (`calculateDestinationCoordinates`, rider dashboard)

Source: `src/unnamed/part_003`, lines 117-138.  The loop body is
`hash = ((hash << 5) - hash) + destinationName.charCodeAt(i);
 hash = hash & hash;` — the shift wraps to 32 bits, the subtraction and
addition are exact (the magnitudes stay far below 2^53), and the final
`hash & hash` wraps the sum back to a 32-bit signed integer. -/

namespace Rider3

/-- One iteration of the hash loop. -/
def hashStep (hash : Int) (code : Nat) : Int := int32 (jsShl5 hash - hash + code)

/-- The hash of a destination name, given as its list of UTF-16 code
units (`charCodeAt` values), folded left-to-right from 0. -/
def hashOfName (destinationName : List Nat) : Int := destinationName.foldl hashStep 0

/-- `(Math.abs(hash % 100) / 100) * 0.015 + 0.005`. -/
def offsetLngFactor (hash : Int) : ℚ :=
  ((jsAbs (jsRem hash 100) : ℚ) / 100) * 0.015 + 0.005

/-- `(Math.abs((hash >> 8) % 100) / 100) * 0.015 + 0.005`; the arithmetic
right shift of a 32-bit signed integer is flooring division by 2^8. -/
def offsetLatFactor (hash : Int) : ℚ :=
  ((jsAbs (jsRem (hash / 256) 100) : ℚ) / 100) * 0.015 + 0.005

/-- `hash % 2 === 0 ? 1 : -1`. -/
def lngDirection (hash : Int) : Int := if jsRem hash 2 = 0 then 1 else -1

/-- `(hash >> 1) % 2 === 0 ? 1 : -1`. -/
def latDirection (hash : Int) : Int := if jsRem (hash / 2) 2 = 0 then 1 else -1

/-- The pseudo-geocoder: displaces the pickup point by the two hash-derived
offsets.  Coordinates are `(longitude, latitude)` rationals. -/
def calculateDestinationCoordinates (pickupLng pickupLat : ℚ)
    (destinationName : List Nat) : ℚ × ℚ :=
  let hash := hashOfName destinationName
  (pickupLng + offsetLngFactor hash * (lngDirection hash : ℚ),
   pickupLat + offsetLatFactor hash * (latDirection hash : ℚ))

end Rider3

/-! Comparison definitions written from the spec's words, for the hash
refinement claim: "a 32-bit signed integer hash by iterating the string's
character codes with `hash = hash*31 + code`, wrapped to 32 bits". -/

/-- Spec-side hash step: `hash*31 + code`, wrapped to a 32-bit signed
integer. -/
def specHashStep (hash : Int) (code : Nat) : Int := int32 (hash * 31 + code)

/-- Spec-side hash: fold `hash = hash*31 + code` over the character codes,
every intermediate value wrapped to a 32-bit signed integer. -/
def specHash (codes : List Nat) : Int := codes.foldl specHashStep 0

/-! ### Fare estimator (`calculateFare`)

Two variants: `src/unnamed/part_003` lines 423-446 (base fare 20, rate 15
per km) and `src/unnamed/part_004` lines 333-353 (no base fare, rate 12
per km).  Both spell out the identical distance computation
(`toRad`, `dLat`, `dLon`, `a`, `c = 2*atan2(√a, √(1-a))`,
`distance = 6371 * c`), embedded here once as `haversineA` and
`jsHaversineDistance`.  Coordinate pairs are `(longitude, latitude)`
in decimal degrees. -/

/-- `const toRad = (value) => (value * Math.PI) / 180`. -/
noncomputable def toRad (value : ℝ) : ℝ := value * Real.pi / 180

/-- JavaScript `Math.atan2` on real arguments (the signed-zero cases of
IEEE collapse to the single real 0). -/
noncomputable def jsAtan2 (y x : ℝ) : ℝ :=
  if 0 < x then Real.arctan (y / x)
  else if x < 0 then
    (if 0 ≤ y then Real.arctan (y / x) + Real.pi else Real.arctan (y / x) - Real.pi)
  else if 0 < y then Real.pi / 2
  else if y < 0 then -(Real.pi / 2)
  else 0

/-- The `a` local of `calculateFare`:
`sin(dLat/2)*sin(dLat/2) + cos(toRad lat1)*cos(toRad lat2)*sin(dLon/2)*sin(dLon/2)`
with `dLat = toRad (lat2 - lat1)`, `dLon = toRad (lon2 - lon1)`, where a
coordinate pair is `(longitude, latitude)`. -/
noncomputable def haversineA (pickupCoords dropoffCoords : ℝ × ℝ) : ℝ :=
  let lat1 := pickupCoords.2
  let lon1 := pickupCoords.1
  let lat2 := dropoffCoords.2
  let lon2 := dropoffCoords.1
  let dLat := toRad (lat2 - lat1)
  let dLon := toRad (lon2 - lon1)
  Real.sin (dLat / 2) * Real.sin (dLat / 2) +
    Real.cos (toRad lat1) * Real.cos (toRad lat2) *
      Real.sin (dLon / 2) * Real.sin (dLon / 2)

/-- The `distance` local of `calculateFare`:
`R * c` with `R = 6371` and `c = 2 * atan2(√a, √(1-a))`. -/
noncomputable def jsHaversineDistance (pickupCoords dropoffCoords : ℝ × ℝ) : ℝ :=
  6371 * (2 * jsAtan2 (Real.sqrt (haversineA pickupCoords dropoffCoords))
    (Real.sqrt (1 - haversineA pickupCoords dropoffCoords)))

namespace Rider3

/-- `calculateFare` of part_003: `baseFare + Math.round(distance * 15)`
with `baseFare = 20`. -/
noncomputable def calculateFare (pickupCoords dropoffCoords : ℝ × ℝ) : ℤ :=
  20 + round (jsHaversineDistance pickupCoords dropoffCoords * 15)

end Rider3

namespace Rider4

/-- A rider-dashboard location: a place name and `(longitude, latitude)`
coordinates. -/
structure Location where
  name : String
  coordinates : ℝ × ℝ

/-- `calculateFare` of part_004: reads the `pickup`/`dropoff` state,
returns 0 when either is unset, else `Math.round(distance * 12)`. -/
noncomputable def calculateFare (pickup dropoff : Option Location) : ℤ :=
  match pickup, dropoff with
  | some p, some d => round (jsHaversineDistance p.coordinates d.coordinates * 12)
  | _, _ => 0

end Rider4

/-- The great-circle distance as the spec words it: "the haversine formula
with Earth radius 6371 km", i.e. `d = 2·R·arcsin(√a)` with
`a = sin²(Δφ/2) + cos φ₁ · cos φ₂ · sin²(Δλ/2)` in radians.  Comparison
definition for the fare refinement claim, written from the spec, not from
the source. -/
noncomputable def greatCircleDistance (p q : ℝ × ℝ) : ℝ :=
  2 * 6371 * Real.arcsin (Real.sqrt
    (Real.sin ((toRad q.2 - toRad p.2) / 2) ^ 2 +
      Real.cos (toRad p.2) * Real.cos (toRad q.2) *
        Real.sin ((toRad q.1 - toRad p.1) / 2) ^ 2))

/-! ### Toast messages

The shape of the objects passed to `toast({...})` at the call sites the
claims are about: an optional title, a description, whether the variant is
"destructive", and an optional duration. -/

/-- A user-visible toast message as requested by a call site. -/
structure ToastMsg where
  title : Option String
  description : String
  destructive : Bool
  duration : Option Nat
deriving DecidableEq, Repr

/-- `{title: "Missing Location", description: "Please select both pickup and
dropoff locations.", variant: "destructive"}`. -/
def missingLocationToast : ToastMsg :=
  ⟨some "Missing Location", "Please select both pickup and dropoff locations.", true, none⟩

/-- `{title: "Not logged in", description: "Please sign in to request a
ride", variant: "destructive"}`. -/
def notLoggedInToast : ToastMsg :=
  ⟨some "Not logged in", "Please sign in to request a ride", true, none⟩

/-- `{title: "Error", description: "Failed to create ride request. Please
try again.", variant: "destructive"}`. -/
def requestErrorToast : ToastMsg :=
  ⟨some "Error", "Failed to create ride request. Please try again.", true, none⟩

/-- `{title: "Ride Requested", description: "Looking for drivers near
you...", duration: 5000}`. -/
def rideRequestedToast : ToastMsg :=
  ⟨some "Ride Requested", "Looking for drivers near you...", false, some 5000⟩

/-- Whether a toast is the authentication-required notice (title
"Not logged in"). -/
def isAuthNotice (t : ToastMsg) : Bool := t.title == some "Not logged in"

/-! ### Rider request-ride flow, actions-module variant

Source: `requestRide` in `src/unnamed/part_000` lines 120-203; the
dashboard variant `handleRequestRide` in `src/unnamed/part_003` lines
258-335 performs the same sequence (its extra `enable_realtime_for_table`
RPC is wrapped in an inner try whose failure is swallowed, so it does not
affect the state, the toasts or the insert).  The external collaborators
are passed in explicitly: the current session (`supabase.auth.getSession`),
the result of the insert (`error` or the returned rows' ids), and the fare
estimator the flow calls (`calculateFare`, whose value does not influence
control flow). -/

namespace RiderActions

/-- Rider ride status (`RideStatus` union type). -/
inductive RideStatus where
  | idle | searching | driverAssigned | enRoute | arrived | inProgress | completed
deriving DecidableEq, Repr

/-- A location selected in the dashboard: name plus
`(longitude, latitude)` coordinates (rationals: the flow only moves them
around). -/
structure Location where
  name : String
  coordinates : ℚ × ℚ
deriving DecidableEq, Repr

/-- The row handed to `supabase.from('ride_requests').insert({...})`. -/
structure RideInsert where
  rider_id : String
  pickup_location : String
  destination : String
  rider_location : ℚ × ℚ
  estimated_price : ℤ
  estimated_time : Nat
  ride_type : String
  status : String
deriving DecidableEq, Repr

/-- The component state the flow reads and writes. -/
structure RiderUIState where
  rideStatus : RideStatus
  currentRideId : Option String
  estimatedFare : ℤ
deriving DecidableEq, Repr

/-- What one invocation of the flow produced: the final component state,
the toasts shown, and the inserts issued to the external store. -/
structure RequestOutcome where
  state : RiderUIState
  toasts : List ToastMsg
  inserts : List RideInsert
deriving DecidableEq, Repr

/-- `requestRide`: validation (both locations), then session check, then
optimistic `searching` + fare + insert; a failed insert is caught, the
status rolled back to `idle` and an error toast shown; on success the
returned ride id is adopted and a confirmation toast shown. -/
def requestRide (pickup dropoff : Option Location) (session : Option String)
    (fare : Location → Location → ℤ) (insertResult : Except Unit (List String))
    (st : RiderUIState) : RequestOutcome :=
  match pickup, dropoff with
  | some p, some d =>
    match session with
    | none => ⟨st, [notLoggedInToast], []⟩
    | some uid =>
      -- setRideStatus("searching"); setEstimatedFare(calculatedFare); insert
      let calculatedFare := fare p d
      let record : RideInsert :=
        ⟨uid, p.name, d.name, p.coordinates, calculatedFare, 5, "standard", "pending"⟩
      match insertResult with
      | .error _ =>
        -- catch: error toast, setRideStatus("idle")
        ⟨{ st with rideStatus := .idle, estimatedFare := calculatedFare },
         [requestErrorToast], [record]⟩
      | .ok ids =>
        -- `if (data && data.length > 0) setCurrentRideId(data[0].id)`
        let newRideId := match ids.head? with
          | some i => some i
          | none => st.currentRideId
        ⟨{ st with rideStatus := .searching, estimatedFare := calculatedFare,
                   currentRideId := newRideId },
         [rideRequestedToast], [record]⟩
  | _, _ => ⟨st, [missingLocationToast], []⟩

/-- A sample pickup location used to exercise the flows. -/
def samplePickup : Location := ⟨"Main Gate", (77.2090, 28.6139)⟩

/-- A sample dropoff location used to exercise the flows. -/
def sampleDropoff : Location := ⟨"Library", (77.2190, 28.6079)⟩

/-- A sample idle component state. -/
def idleState : RiderUIState := ⟨.idle, none, 0⟩

end RiderActions

/-! ### Rider request-ride flow, `src/src/components/rider/RiderDashboard.tsx`
variant (lines 488-542)

This variant sets `rideStatus` to `searching` *before* looking up the
session; when there is no session it silently skips the insert (no toast),
and in every non-throwing path it schedules a 3-second timer that
simulates `driverAssigned`.  Only a thrown insert error rolls the status
back to `idle`. -/

namespace RiderV1

/-- The component state of this dashboard variant. -/
structure State where
  rideStatus : RiderActions.RideStatus
  pickup : Option RiderActions.Location
  dropoff : Option RiderActions.Location
deriving DecidableEq, Repr

/-- Outcome of one synchronous run of `handleRequestRide`:
final state, toasts shown, inserts issued, and whether the
driver-found timer was scheduled. -/
structure Outcome where
  state : State
  toasts : List ToastMsg
  inserts : List RiderActions.RideInsert
  timerScheduled : Bool
deriving DecidableEq, Repr

/-- `handleRequestRide` of the `src/src` dashboard.  `fare` stands for its
`calculateFare()` (which reads `pickup`/`dropoff` from the state);
`insertOk` is whether the external insert succeeds. -/
def handleRequestRide (session : Option String)
    (fare : RiderActions.Location → RiderActions.Location → ℤ)
    (insertOk : Bool) (st : State) : Outcome :=
  match st.pickup, st.dropoff with
  | some p, some d =>
    -- setRideStatus("searching") happens before the session lookup
    match session with
    | none =>
      -- `if (session.session)` fails: no insert, no toast; the timer is
      -- still scheduled
      ⟨{ st with rideStatus := .searching }, [], [], true⟩
    | some uid =>
      let record : RiderActions.RideInsert :=
        ⟨uid, p.name, d.name, p.coordinates, fare p d, 5, "standard", "pending"⟩
      if insertOk then
        ⟨{ st with rideStatus := .searching }, [], [record], true⟩
      else
        -- catch: error toast, setRideStatus("idle"); the timer line is
        -- not reached
        ⟨{ st with rideStatus := .idle }, [requestErrorToast], [record], false⟩
  | _, _ => ⟨st, [missingLocationToast], [], false⟩

/-- A sample idle state of this dashboard with both locations selected. -/
def sampleState : State :=
  ⟨.idle, some RiderActions.samplePickup, some RiderActions.sampleDropoff⟩

end RiderV1

/-! ### Driver actions

Source: `src/src/components/driver/actions/driverActions.ts`,
`acceptRide` (lines 44-112) and `declineRide` (lines 114-126). -/

namespace DriverActions

/-- Driver status (`DriverStatus` union type). -/
inductive DriverStatus where
  | offline | online | rideAccepted | pickingUp | inProgress | completed
deriving DecidableEq, Repr

/-- A candidate ride request as cached by the driver dashboard. -/
structure RideRequest where
  id : String
  riderName : String
  riderRating : ℚ
  pickupName : String
  pickupCoordinates : ℚ × ℚ
  dropoffName : String
  dropoffCoordinates : ℚ × ℚ
  distance : String
  fare : String
  timestamp : Nat
deriving DecidableEq, Repr

/-- The driver-dashboard state the actions read and write. -/
structure DriverState where
  driverStatus : DriverStatus
  rideRequests : List RideRequest
  currentRide : Option RideRequest
  currentRideId : Option String
deriving DecidableEq, Repr

/-- The update issued to the external store by `acceptRide`:
`{driver_id, status: 'accepted', driver_location}` keyed by the ride id. -/
structure RideUpdate where
  rideId : String
  driver_id : String
  status : String
  driver_location : ℚ × ℚ
deriving DecidableEq, Repr

/-- `{title: "Not logged in", description: "Please sign in to accept
rides", variant: "destructive"}`. -/
def acceptNotLoggedInToast : ToastMsg :=
  ⟨some "Not logged in", "Please sign in to accept rides", true, none⟩

/-- `{title: "Error", description: "Failed to accept ride. Please try
again.", variant: "destructive"}`. -/
def acceptErrorToast : ToastMsg :=
  ⟨some "Error", "Failed to accept ride. Please try again.", true, none⟩

/-- The "Ride Accepted" toast with the interpolated rider name. -/
def rideAcceptedToast (riderName : String) : ToastMsg :=
  ⟨some "Ride Accepted", "Navigating to pick up " ++ riderName, false, some 5000⟩

/-- `{description: "Ride request declined", duration: 3000}`. -/
def declinedToast : ToastMsg := ⟨none, "Ride request declined", false, some 3000⟩

/-- `acceptRide`: session check, then the `accepted` update to the store;
on success the candidate list is cleared, the accepted ride adopted and
the status set to `rideAccepted`; a failed update is caught with an error
toast and no state change (the swallowed `enable_realtime_for_table` RPC
does not affect any of these). -/
def acceptRide (ride : RideRequest) (session : Option String) (updateOk : Bool)
    (st : DriverState) : DriverState × List ToastMsg × List RideUpdate :=
  match session with
  | none => (st, [acceptNotLoggedInToast], [])
  | some uid =>
    let driverLocation : ℚ × ℚ := (77.2090, 28.6139)
    let upd : RideUpdate := ⟨ride.id, uid, "accepted", driverLocation⟩
    if updateOk then
      ({ st with currentRide := some ride, currentRideId := some ride.id,
                 rideRequests := [], driverStatus := .rideAccepted },
       [rideAcceptedToast ride.riderName], [upd])
    else
      (st, [acceptErrorToast], [upd])

/-- `declineRide`: local-only removal from the candidate list
(`rideRequests.filter(ride => ride.id !== rideId)`) plus a toast; nothing
else is touched. -/
def declineRide (rideId : String) (st : DriverState) : DriverState × List ToastMsg :=
  ({ st with rideRequests := st.rideRequests.filter (fun ride => ride.id != rideId) },
   [declinedToast])

/-- Sample candidate rides used to exercise the driver actions. -/
def candA : RideRequest :=
  ⟨"ride-a", "Asha", 4.7, "Main Gate", (77.2150, 28.6129), "Library", (77.2190, 28.6079),
   "2.3 km", "35", 1⟩

/-- Second sample candidate. -/
def candB : RideRequest :=
  ⟨"ride-b", "Ravi", 4.7, "Hostel", (77.2150, 28.6129), "Canteen", (77.2190, 28.6079),
   "2.3 km", "28", 2⟩

/-- Third sample candidate. -/
def candC : RideRequest :=
  ⟨"ride-c", "Meera", 4.7, "Block C", (77.2150, 28.6129), "Sports Complex", (77.2190, 28.6079),
   "2.3 km", "40", 3⟩

/-- A sample online driver state with three candidates. -/
def sampleOnlineState : DriverState := ⟨.online, [candA, candB, candC], none, none⟩

end DriverActions

/-! ### Toast store

Source: the `use-toast` store concatenated into
`src/src/components/rider/RiderDashboard.tsx` (lines 733-934):
`TOAST_LIMIT = 5`, the `reducer` with `ADD_TOAST` / `UPDATE_TOAST` /
`DISMISS_TOAST` / `REMOVE_TOAST`, and the module-level `count` used by
`genId`.  `setTimeout` registrations made by `DISMISS_TOAST` are side
effects outside the returned state and are not part of the queue. -/

namespace ToastStore

/-- A toast held in the queue.  `openFlag` is the toast's `open` flag;
the React-node and callback fields of the source type are not data and
carry no information the reducer inspects. -/
structure ToasterToast where
  id : Nat
  title : Option String
  description : Option String
  destructive : Bool
  openFlag : Bool
deriving DecidableEq, Repr

/-- The payload of `ADD_TOAST`: a toast without an id
(`Omit<ToasterToast, "id">`). -/
structure ToastContent where
  title : Option String
  description : Option String
  destructive : Bool
  openFlag : Bool
deriving DecidableEq, Repr

/-- The payload of `UPDATE_TOAST`: an id plus the fields the spread
object carries (absent fields leave the fields of the toast unchanged). -/
structure ToastPatch where
  id : Nat
  title : Option (Option String)
  description : Option (Option String)
  destructive : Option Bool
  openFlag : Option Bool
deriving DecidableEq, Repr

/-- `{...t, ...patch}`. -/
def mergeToast (t : ToasterToast) (p : ToastPatch) : ToasterToast :=
  { id := p.id,
    title := p.title.getD t.title,
    description := p.description.getD t.description,
    destructive := p.destructive.getD t.destructive,
    openFlag := p.openFlag.getD t.openFlag }

/-- The reducer's four actions. -/
inductive Action where
  | addToast (toast : ToastContent)
  | updateToast (patch : ToastPatch)
  | dismissToast (toastId : Option Nat)
  | removeToast (toastId : Option Nat)
deriving DecidableEq, Repr

/-- The store state: the queue plus the module-level `count` that `genId`
increments. -/
structure State where
  toasts : List ToasterToast
  count : Nat
deriving DecidableEq, Repr

/-- `TOAST_LIMIT = 5`. -/
def TOAST_LIMIT : Nat := 5

/-- `Number.MAX_VALUE` is the largest double, `(2^53 - 1) * 2^971`. -/
def NumberMaxValue : Nat := (2 ^ 53 - 1) * 2 ^ 971

/-- `genId`: `count = (count + 1) % Number.MAX_VALUE`. -/
def genId (count : Nat) : Nat := (count + 1) % NumberMaxValue

/-- JavaScript `list.slice(-n)` for `n > 0`: the last `min n (length)`
elements. -/
def jsSliceLast (n : Nat) (l : List α) : List α := l.drop (l.length - n)

/-- The `reducer`, including the id generation `ADD_TOAST` performs. -/
def reducer (state : State) (action : Action) : State :=
  match action with
  | .addToast t =>
    let id := genId state.count
    { toasts := jsSliceLast TOAST_LIMIT
        (state.toasts ++ [⟨id, t.title, t.description, t.destructive, t.openFlag⟩]),
      count := id }
  | .updateToast p =>
    { state with toasts := state.toasts.map (fun t =>
        if t.id = p.id then mergeToast t p else t) }
  | .dismissToast (some tid) =>
    { state with toasts := state.toasts.map (fun t =>
        if t.id = tid then { t with openFlag := false } else t) }
  | .dismissToast none =>
    { state with toasts := state.toasts.map (fun t => { t with openFlag := false }) }
  | .removeToast (some tid) =>
    { state with toasts := state.toasts.filter (fun t => t.id != tid) }
  | .removeToast none =>
    { state with toasts := [] }

/-- The initial store state: `memoryState = { toasts: [] }`, `count = 0`. -/
def initialState : State := ⟨[], 0⟩

/-- The states the store can reach from the initial state by dispatching
actions. -/
inductive Reachable : State → Prop where
  | init : Reachable initialState
  | step {s : State} (a : Action) : Reachable s → Reachable (reducer s a)

/-- A sample toast payload used to exercise the store. -/
def sampleToast : ToastContent :=
  ⟨some "Ride Requested", some "Looking for drivers near you...", false, true⟩

/-- The state after dispatching six `ADD_TOAST` actions from the initial
state: one more push than the capacity. -/
def sixPushes : State :=
  reducer (reducer (reducer (reducer (reducer (reducer initialState
    (.addToast sampleToast)) (.addToast sampleToast)) (.addToast sampleToast))
    (.addToast sampleToast)) (.addToast sampleToast)) (.addToast sampleToast)

end ToastStore

/-! ## Theorems -/

/-! ### The 32-bit hash (C4) -/

/-- One source hash step equals one spec hash step: the wrapped shift,
subtraction and re-wrap amount to `hash*31 + code` modulo 2^32,
reinterpreted as signed. -/
theorem hashStep_eq_specHashStep (h : Int) (c : Nat) :
    Rider3.hashStep h c = specHashStep h c := by
  unfold Rider3.hashStep specHashStep jsShl5 int32
  omega

/-- Folding the source step and folding the spec step agree from any
accumulator. -/
theorem foldl_hashStep_eq_specHashStep (codes : List Nat) :
    ∀ a : Int, codes.foldl Rider3.hashStep a = codes.foldl specHashStep a := by
  induction codes with
  | nil => intro a; rfl
  | cons c cs ih =>
    intro a
    simp only [List.foldl_cons, hashStep_eq_specHashStep]
    exact ih _

/-- C4: for every destination-name string (as its list of character
codes), the hash computed by the pseudo-geocoder equals the left-to-right
fold of `hash := hash*31 + code` with every intermediate value wrapped to
a 32-bit signed integer. -/
theorem c4_hash_equals_mul31_fold (codes : List Nat) :
    Rider3.hashOfName codes = specHash codes :=
  foldl_hashStep_eq_specHashStep codes 0

/-! ### The pseudo-geocoder (C3) -/

/-- `int32` lands in the signed 32-bit range. -/
theorem int32_mem_range (x : Int) : -2 ^ 31 ≤ int32 x ∧ int32 x < 2 ^ 31 := by
  unfold int32; omega

/-- The hash of any name is a 32-bit signed integer. -/
theorem hashOfName_mem_range (codes : List Nat) :
    -2 ^ 31 ≤ Rider3.hashOfName codes ∧ Rider3.hashOfName codes < 2 ^ 31 := by
  unfold Rider3.hashOfName
  have key : ∀ (l : List Nat) (a : Int), -2 ^ 31 ≤ a → a < 2 ^ 31 →
      -2 ^ 31 ≤ l.foldl Rider3.hashStep a ∧ l.foldl Rider3.hashStep a < 2 ^ 31 := by
    intro l
    induction l with
    | nil => intro a h1 h2; exact ⟨h1, h2⟩
    | cons c cs ih =>
      intro a _ _
      simp only [List.foldl_cons]
      exact ih _ (int32_mem_range _).1 (int32_mem_range _).2
  exact key codes 0 (by decide) (by decide)

/-- The truncated remainder by 100 has absolute value at most 99. -/
theorem jsRem_100_natAbs_le (a : Int) : (jsRem a 100).natAbs ≤ 99 := by
  unfold jsRem; split <;> omega

/-- The factor `(k/100) * 0.015 + 0.005` lies in `[0.005, 0.02)` whenever
`k ≤ 99`. -/
theorem factor_mem_Ico (k : Nat) (hk : k ≤ 99) :
    (0.005 : ℚ) ≤ (k : ℚ) / 100 * 0.015 + 0.005 ∧
      (k : ℚ) / 100 * 0.015 + 0.005 < 0.02 := by
  have hk' : (k : ℚ) ≤ 99 := by exact_mod_cast hk
  have hk0 : (0 : ℚ) ≤ (k : ℚ) := by positivity
  constructor
  · nlinarith
  · nlinarith

/-- For a 32-bit signed integer, `h % 2 === 0` is bit 0 of its unsigned
representation being clear. -/
theorem jsRem_two_eq_bit0 (h : Int) (h1 : -2 ^ 31 ≤ h) (h2 : h < 2 ^ 31) :
    jsRem h 2 = 0 ↔ toUint32 h / 2 ^ 0 % 2 = 0 := by
  unfold jsRem toUint32
  split <;> omega

/-- For a 32-bit signed integer, `(h >> 1) % 2 === 0` is bit 1 of its
unsigned representation being clear. -/
theorem jsRem_shr_two_eq_bit1 (h : Int) (h1 : -2 ^ 31 ≤ h) (h2 : h < 2 ^ 31) :
    jsRem (h / 2) 2 = 0 ↔ toUint32 h / 2 ^ 1 % 2 = 0 := by
  unfold jsRem toUint32
  split <;> omega

/-- C3: for every pickup coordinate pair and destination name, the two
offset magnitudes lie in `[0.005, 0.02)` degrees, the longitude sign comes
from bit 0 and the latitude sign from bit 1 of the hash, and the
pseudo-geocoder is deterministic. -/
theorem c3_geocoder_offsets_signs_deterministic (pickupLng pickupLat : ℚ)
    (destinationName : List Nat) :
    (0.005 ≤ Rider3.offsetLngFactor (Rider3.hashOfName destinationName) ∧
      Rider3.offsetLngFactor (Rider3.hashOfName destinationName) < 0.02) ∧
    (0.005 ≤ Rider3.offsetLatFactor (Rider3.hashOfName destinationName) ∧
      Rider3.offsetLatFactor (Rider3.hashOfName destinationName) < 0.02) ∧
    (Rider3.lngDirection (Rider3.hashOfName destinationName) =
      if toUint32 (Rider3.hashOfName destinationName) / 2 ^ 0 % 2 = 0 then 1 else -1) ∧
    (Rider3.latDirection (Rider3.hashOfName destinationName) =
      if toUint32 (Rider3.hashOfName destinationName) / 2 ^ 1 % 2 = 0 then 1 else -1) ∧
    Rider3.calculateDestinationCoordinates pickupLng pickupLat destinationName =
      Rider3.calculateDestinationCoordinates pickupLng pickupLat destinationName := by
  set h := Rider3.hashOfName destinationName with hh
  obtain ⟨hlo, hhi⟩ := hashOfName_mem_range destinationName
  rw [← hh] at hlo hhi
  refine ⟨?_, ?_, ?_, ?_, rfl⟩
  · unfold Rider3.offsetLngFactor jsAbs
    exact factor_mem_Ico _ (jsRem_100_natAbs_le h)
  · unfold Rider3.offsetLatFactor jsAbs
    exact factor_mem_Ico _ (jsRem_100_natAbs_le (h / 256))
  · unfold Rider3.lngDirection
    exact if_congr (jsRem_two_eq_bit0 h hlo hhi) rfl rfl
  · unfold Rider3.latDirection
    exact if_congr (jsRem_shr_two_eq_bit1 h hlo hhi) rfl rfl

/-! ### The toast store (C8, C10) -/

/-- C10: dismissing, with or without a target id, removes nothing: the
queue keeps its length, ids and order, and the only change is that the
targeted toast(s) get `open := false`. -/
theorem c10_dismiss_preserves_queue (s : ToastStore.State) (tid : Nat) :
    ((ToastStore.reducer s (.dismissToast (some tid))).toasts =
      s.toasts.map (fun t => if t.id = tid then { t with openFlag := false } else t)) ∧
    (ToastStore.reducer s (.dismissToast (some tid))).toasts.length = s.toasts.length ∧
    (ToastStore.reducer s (.dismissToast (some tid))).toasts.map ToastStore.ToasterToast.id =
      s.toasts.map ToastStore.ToasterToast.id ∧
    ((ToastStore.reducer s (.dismissToast none)).toasts =
      s.toasts.map (fun t => { t with openFlag := false })) ∧
    (ToastStore.reducer s (.dismissToast none)).toasts.length = s.toasts.length ∧
    (ToastStore.reducer s (.dismissToast none)).toasts.map ToastStore.ToasterToast.id =
      s.toasts.map ToastStore.ToasterToast.id := by
  refine ⟨rfl, ?_, ?_, rfl, ?_, ?_⟩
  · simp [ToastStore.reducer]
  · simp only [ToastStore.reducer, List.map_map]
    apply List.map_congr_left
    intro t _
    by_cases ht : t.id = tid <;> simp [ht]
  · simp [ToastStore.reducer]
  · simp only [ToastStore.reducer, List.map_map]
    apply List.map_congr_left
    intro t _
    simp

/-- The capacity invariant: every reachable store state holds at most
`TOAST_LIMIT` toasts. -/
theorem reachable_toasts_le_limit (s : ToastStore.State)
    (hs : ToastStore.Reachable s) : s.toasts.length ≤ ToastStore.TOAST_LIMIT := by
  induction hs with
  | init => simp [ToastStore.initialState, ToastStore.TOAST_LIMIT]
  | step a _ ih =>
    cases a with
    | addToast t =>
      simp only [ToastStore.reducer, ToastStore.jsSliceLast, List.length_drop]
      omega
    | updateToast p => simpa [ToastStore.reducer] using ih
    | dismissToast tid =>
      cases tid <;> simpa [ToastStore.reducer] using ih
    | removeToast tid =>
      cases tid with
      | none => simp [ToastStore.reducer]
      | some tid =>
        simp only [ToastStore.reducer]
        exact le_trans (List.length_filter_le _ _) ih

/-- C8: in every reachable state the queue holds at most 5 toasts, and a
push appends the new toast at the end, dropping the oldest entries so that
only the most recently added remain when the capacity would be exceeded. -/
theorem c8_toast_capacity (s : ToastStore.State) (hs : ToastStore.Reachable s)
    (t : ToastStore.ToastContent) :
    s.toasts.length ≤ ToastStore.TOAST_LIMIT ∧
    (ToastStore.reducer s (.addToast t)).toasts =
      (s.toasts ++
        [(⟨ToastStore.genId s.count, t.title, t.description, t.destructive,
          t.openFlag⟩ : ToastStore.ToasterToast)]).drop
        (s.toasts.length + 1 - ToastStore.TOAST_LIMIT) := by
  refine ⟨reachable_toasts_le_limit s hs, ?_⟩
  simp [ToastStore.reducer, ToastStore.jsSliceLast]

/-- Witness for C8: after six pushes the store is reachable, holds at most
5 toasts, and a further push appends at the end and drops the oldest. -/
theorem c8_toast_capacity_witness :
    ToastStore.Reachable ToastStore.sixPushes ∧
    (ToastStore.sixPushes.toasts.length ≤ ToastStore.TOAST_LIMIT ∧
      (ToastStore.reducer ToastStore.sixPushes (.addToast ToastStore.sampleToast)).toasts =
        (ToastStore.sixPushes.toasts ++
          [(⟨ToastStore.genId ToastStore.sixPushes.count, ToastStore.sampleToast.title,
            ToastStore.sampleToast.description, ToastStore.sampleToast.destructive,
            ToastStore.sampleToast.openFlag⟩ : ToastStore.ToasterToast)]).drop
          (ToastStore.sixPushes.toasts.length + 1 - ToastStore.TOAST_LIMIT)) :=
  have hr : ToastStore.Reachable ToastStore.sixPushes :=
    .step _ (.step _ (.step _ (.step _ (.step _ (.step _ .init)))))
  ⟨hr, c8_toast_capacity ToastStore.sixPushes hr ToastStore.sampleToast⟩

/-! ### Driver accept/decline (C7) -/

/-- C7: a successful accept empties the candidate list and moves the
driver from `online` to `rideAccepted`; a decline removes exactly the
targeted candidate, keeping every other candidate (in order) and the
status. -/
theorem c7_accept_clears_decline_removes_target (ride : DriverActions.RideRequest)
    (uid : String) (st st2 : DriverActions.DriverState)
    (hon : st.driverStatus = .online) (tid : String)
    (pre post : List DriverActions.RideRequest) (r : DriverActions.RideRequest)
    (hsplit : st2.rideRequests = pre ++ r :: post) (hr : r.id = tid)
    (hpre : ∀ x ∈ pre, x.id ≠ tid) (hpost : ∀ x ∈ post, x.id ≠ tid) :
    ((DriverActions.acceptRide ride (some uid) true st).1.rideRequests = [] ∧
      st.driverStatus = .online ∧
      (DriverActions.acceptRide ride (some uid) true st).1.driverStatus = .rideAccepted) ∧
    ((DriverActions.declineRide tid st2).1.rideRequests = pre ++ post ∧
      (DriverActions.declineRide tid st2).1.driverStatus = st2.driverStatus) := by
  refine ⟨⟨?_, hon, ?_⟩, ?_, rfl⟩
  · simp [DriverActions.acceptRide]
  · simp [DriverActions.acceptRide]
  · simp only [DriverActions.declineRide, hsplit, List.filter_append, List.filter_cons]
    rw [List.filter_eq_self.mpr, List.filter_eq_self.mpr]
    · simp [hr]
    · intro x hx; simpa using hpost x hx
    · intro x hx; simpa using hpre x hx

/-- Witness for C7: accepting `candA` from the sample online state clears
the candidates and moves to `rideAccepted`; declining `ride-b` removes
exactly `candB`. -/
theorem c7_accept_clears_decline_removes_target_witness :
    (DriverActions.sampleOnlineState.driverStatus = .online ∧
      DriverActions.sampleOnlineState.rideRequests =
        [DriverActions.candA] ++ DriverActions.candB :: [DriverActions.candC] ∧
      DriverActions.candB.id = "ride-b" ∧
      (∀ x ∈ [DriverActions.candA], x.id ≠ "ride-b") ∧
      (∀ x ∈ [DriverActions.candC], x.id ≠ "ride-b")) ∧
    (((DriverActions.acceptRide DriverActions.candA (some "driver-1") true
        DriverActions.sampleOnlineState).1.rideRequests = [] ∧
      DriverActions.sampleOnlineState.driverStatus = .online ∧
      (DriverActions.acceptRide DriverActions.candA (some "driver-1") true
        DriverActions.sampleOnlineState).1.driverStatus = .rideAccepted) ∧
     ((DriverActions.declineRide "ride-b" DriverActions.sampleOnlineState).1.rideRequests =
        [DriverActions.candA] ++ [DriverActions.candC] ∧
      (DriverActions.declineRide "ride-b" DriverActions.sampleOnlineState).1.driverStatus =
        DriverActions.sampleOnlineState.driverStatus)) :=
  ⟨⟨rfl, rfl, rfl, by decide, by decide⟩,
    c7_accept_clears_decline_removes_target DriverActions.candA "driver-1"
      DriverActions.sampleOnlineState DriverActions.sampleOnlineState rfl "ride-b"
      [DriverActions.candA] [DriverActions.candC] DriverActions.candB rfl rfl
      (by decide) (by decide)⟩

/-! ### Rider request-ride flow (C5, C6, C1) -/

/-- C5: with either location unset, `requestRide` only notifies a
validation error: the state is untouched (status stays `idle`) and no
insert is issued. -/
theorem c5_missing_location_blocks (pickup dropoff : Option RiderActions.Location)
    (session : Option String) (fare : RiderActions.Location → RiderActions.Location → ℤ)
    (insertResult : Except Unit (List String)) (st : RiderActions.RiderUIState)
    (hmiss : pickup = none ∨ dropoff = none) (hidle : st.rideStatus = .idle) :
    (RiderActions.requestRide pickup dropoff session fare insertResult st).state = st ∧
    (RiderActions.requestRide pickup dropoff session fare insertResult st).state.rideStatus
      = .idle ∧
    (RiderActions.requestRide pickup dropoff session fare insertResult st).inserts = [] ∧
    (RiderActions.requestRide pickup dropoff session fare insertResult st).toasts =
      [missingLocationToast] := by
  rcases hmiss with h | h <;> subst h
  · cases dropoff <;> simp [RiderActions.requestRide, hidle]
  · cases pickup <;> simp [RiderActions.requestRide, hidle]

/-- Witness for C5: a request with no dropoff from the sample idle state. -/
theorem c5_missing_location_blocks_witness :
    ((some RiderActions.samplePickup = none ∨
        (none : Option RiderActions.Location) = none) ∧
      RiderActions.idleState.rideStatus = .idle) ∧
    ((RiderActions.requestRide (some RiderActions.samplePickup) none none (fun _ _ => 0)
        (.ok []) RiderActions.idleState).state = RiderActions.idleState ∧
     (RiderActions.requestRide (some RiderActions.samplePickup) none none (fun _ _ => 0)
        (.ok []) RiderActions.idleState).state.rideStatus = .idle ∧
     (RiderActions.requestRide (some RiderActions.samplePickup) none none (fun _ _ => 0)
        (.ok []) RiderActions.idleState).inserts = [] ∧
     (RiderActions.requestRide (some RiderActions.samplePickup) none none (fun _ _ => 0)
        (.ok []) RiderActions.idleState).toasts = [missingLocationToast]) :=
  ⟨⟨Or.inr rfl, rfl⟩,
    c5_missing_location_blocks (some RiderActions.samplePickup) none none (fun _ _ => 0)
      (.ok []) RiderActions.idleState (Or.inr rfl) rfl⟩

/-- C6: a failed insert is caught: the status is rolled back to `idle`
(its pre-attempt value), the user sees the error toast, and the insert was
attempted exactly once. -/
theorem c6_insert_failure_rolls_back (p d : RiderActions.Location) (uid : String)
    (fare : RiderActions.Location → RiderActions.Location → ℤ)
    (st : RiderActions.RiderUIState) (hidle : st.rideStatus = .idle) :
    (RiderActions.requestRide (some p) (some d) (some uid) fare (.error ()) st).state.rideStatus
      = .idle ∧
    (RiderActions.requestRide (some p) (some d) (some uid) fare (.error ()) st).state.rideStatus
      = st.rideStatus ∧
    (RiderActions.requestRide (some p) (some d) (some uid) fare (.error ()) st).toasts =
      [requestErrorToast] ∧
    (RiderActions.requestRide (some p) (some d) (some uid) fare (.error ()) st).inserts.length
      = 1 := by
  simp [RiderActions.requestRide, hidle]

/-- Witness for C6: a failed insert from the sample idle state. -/
theorem c6_insert_failure_rolls_back_witness :
    RiderActions.idleState.rideStatus = .idle ∧
    ((RiderActions.requestRide (some RiderActions.samplePickup)
        (some RiderActions.sampleDropoff) (some "rider-1") (fun _ _ => 42) (.error ())
        RiderActions.idleState).state.rideStatus = .idle ∧
     (RiderActions.requestRide (some RiderActions.samplePickup)
        (some RiderActions.sampleDropoff) (some "rider-1") (fun _ _ => 42) (.error ())
        RiderActions.idleState).state.rideStatus = RiderActions.idleState.rideStatus ∧
     (RiderActions.requestRide (some RiderActions.samplePickup)
        (some RiderActions.sampleDropoff) (some "rider-1") (fun _ _ => 42) (.error ())
        RiderActions.idleState).toasts = [requestErrorToast] ∧
     (RiderActions.requestRide (some RiderActions.samplePickup)
        (some RiderActions.sampleDropoff) (some "rider-1") (fun _ _ => 42) (.error ())
        RiderActions.idleState).inserts.length = 1) :=
  ⟨rfl, c6_insert_failure_rolls_back RiderActions.samplePickup RiderActions.sampleDropoff
    "rider-1" (fun _ _ => 42) RiderActions.idleState rfl⟩

/-- Counterexample to C1 as stated: in the `src/src` dashboard variant,
requesting with both locations set and no session shows no
authentication-required notice and leaves the status at `searching`, not
`idle` (the insert is indeed not issued). -/
theorem c1_counterexample :
    ¬ (((RiderV1.handleRequestRide none (fun _ _ => 0) true
          RiderV1.sampleState).toasts.any isAuthNotice) = true ∧
       (RiderV1.handleRequestRide none (fun _ _ => 0) true
          RiderV1.sampleState).state.rideStatus = .idle ∧
       (RiderV1.handleRequestRide none (fun _ _ => 0) true
          RiderV1.sampleState).inserts = []) := by
  decide

/-- C1 (amended): with both locations set and no session, the
actions-module/part_003 flow blocks with the authentication notice, no
insert and an unchanged `idle` status; the `src/src` dashboard variant
issues no insert either, but shows no notice and sets the status to
`searching` with the simulated driver-found timer scheduled. -/
theorem c1_unauthenticated_request (p d : RiderActions.Location)
    (fare : RiderActions.Location → RiderActions.Location → ℤ)
    (insertResult : Except Unit (List String)) (st : RiderActions.RiderUIState)
    (hidle : st.rideStatus = .idle)
    (fare2 : RiderActions.Location → RiderActions.Location → ℤ) (insertOk : Bool)
    (st2 : RiderV1.State) (hp : st2.pickup = some p) (hd : st2.dropoff = some d) :
    ((RiderActions.requestRide (some p) (some d) none fare insertResult st).toasts =
        [notLoggedInToast] ∧
      (RiderActions.requestRide (some p) (some d) none fare insertResult st).inserts = [] ∧
      (RiderActions.requestRide (some p) (some d) none fare insertResult st).state.rideStatus
        = .idle) ∧
    ((RiderV1.handleRequestRide none fare2 insertOk st2).inserts = [] ∧
      (RiderV1.handleRequestRide none fare2 insertOk st2).toasts = [] ∧
      (RiderV1.handleRequestRide none fare2 insertOk st2).state.rideStatus = .searching ∧
      (RiderV1.handleRequestRide none fare2 insertOk st2).timerScheduled = true) := by
  constructor
  · simp [RiderActions.requestRide, hidle]
  · simp [RiderV1.handleRequestRide, hp, hd]

/-- Witness for the amended C1 at the sample locations and states. -/
theorem c1_unauthenticated_request_witness :
    (RiderActions.idleState.rideStatus = .idle ∧
      RiderV1.sampleState.pickup = some RiderActions.samplePickup ∧
      RiderV1.sampleState.dropoff = some RiderActions.sampleDropoff) ∧
    (((RiderActions.requestRide (some RiderActions.samplePickup)
          (some RiderActions.sampleDropoff) none (fun _ _ => 0) (.ok [])
          RiderActions.idleState).toasts = [notLoggedInToast] ∧
       (RiderActions.requestRide (some RiderActions.samplePickup)
          (some RiderActions.sampleDropoff) none (fun _ _ => 0) (.ok [])
          RiderActions.idleState).inserts = [] ∧
       (RiderActions.requestRide (some RiderActions.samplePickup)
          (some RiderActions.sampleDropoff) none (fun _ _ => 0) (.ok [])
          RiderActions.idleState).state.rideStatus = .idle) ∧
     ((RiderV1.handleRequestRide none (fun _ _ => 0) true RiderV1.sampleState).inserts = [] ∧
       (RiderV1.handleRequestRide none (fun _ _ => 0) true RiderV1.sampleState).toasts = [] ∧
       (RiderV1.handleRequestRide none (fun _ _ => 0) true
          RiderV1.sampleState).state.rideStatus = .searching ∧
       (RiderV1.handleRequestRide none (fun _ _ => 0) true
          RiderV1.sampleState).timerScheduled = true)) :=
  ⟨⟨rfl, rfl, rfl⟩,
    c1_unauthenticated_request RiderActions.samplePickup RiderActions.sampleDropoff
      (fun _ _ => 0) (.ok []) RiderActions.idleState rfl (fun _ _ => 0) true
      RiderV1.sampleState rfl rfl⟩

/-! ### Fare estimator (C9, C2) -/

/-- The `a` term is symmetric in its two points. -/
theorem haversineA_comm (p q : ℝ × ℝ) : haversineA p q = haversineA q p := by
  unfold haversineA
  simp only
  have key : ∀ a b : ℝ, Real.sin (toRad (a - b) / 2) * Real.sin (toRad (a - b) / 2) =
      Real.sin (toRad (b - a) / 2) * Real.sin (toRad (b - a) / 2) := by
    intro a b
    have h : toRad (a - b) = -toRad (b - a) := by unfold toRad; ring
    rw [h, neg_div, Real.sin_neg]
    ring
  have hlon : Real.sin (toRad (q.1 - p.1) / 2) = -Real.sin (toRad (p.1 - q.1) / 2) := by
    rw [show toRad (q.1 - p.1) = -toRad (p.1 - q.1) by unfold toRad; ring, neg_div,
      Real.sin_neg]
  rw [key q.2 p.2, hlon]
  ring

/-- C9: the fare estimator is symmetric, `fare(A, B) = fare(B, A)`. -/
theorem c9_fare_symmetric (A B : ℝ × ℝ) :
    Rider3.calculateFare A B = Rider3.calculateFare B A := by
  unfold Rider3.calculateFare jsHaversineDistance
  rw [haversineA_comm]

/-- `toRad` maps `[-90, 90]` into `[-π/2, π/2]`. -/
theorem toRad_mem_Icc (x : ℝ) (h1 : -90 ≤ x) (h2 : x ≤ 90) :
    -(Real.pi / 2) ≤ toRad x ∧ toRad x ≤ Real.pi / 2 := by
  unfold toRad
  have hpi := Real.pi_pos
  constructor <;> nlinarith

/-- The cosine of an in-range latitude, in radians, is nonnegative. -/
theorem cos_toRad_nonneg (x : ℝ) (h1 : -90 ≤ x) (h2 : x ≤ 90) :
    0 ≤ Real.cos (toRad x) := by
  obtain ⟨ha, hb⟩ := toRad_mem_Icc x h1 h2
  exact Real.cos_nonneg_of_mem_Icc ⟨ha, hb⟩

/-- For latitudes within `[-90, 90]` degrees the `a` term is nonnegative. -/
theorem haversineA_nonneg (p q : ℝ × ℝ)
    (hp1 : -90 ≤ p.2) (hp2 : p.2 ≤ 90) (hq1 : -90 ≤ q.2) (hq2 : q.2 ≤ 90) :
    0 ≤ haversineA p q := by
  have hc1 := cos_toRad_nonneg p.2 hp1 hp2
  have hc2 := cos_toRad_nonneg q.2 hq1 hq2
  unfold haversineA
  simp only
  set s1 := Real.sin (toRad (q.2 - p.2) / 2)
  set s2 := Real.sin (toRad (q.1 - p.1) / 2)
  nlinarith [mul_self_nonneg s1, mul_self_nonneg s2,
    mul_nonneg (mul_nonneg hc1 hc2) (mul_self_nonneg s2)]

/-- For latitudes within `[-90, 90]` degrees the `a` term is at most 1. -/
theorem haversineA_le_one (p q : ℝ × ℝ)
    (hp1 : -90 ≤ p.2) (hp2 : p.2 ≤ 90) (hq1 : -90 ≤ q.2) (hq2 : q.2 ≤ 90) :
    haversineA p q ≤ 1 := by
  have hc1 := cos_toRad_nonneg p.2 hp1 hp2
  have hc2 := cos_toRad_nonneg q.2 hq1 hq2
  unfold haversineA
  simp only
  set u := toRad p.2 with hu
  set v := toRad q.2 with hv
  have hlin : toRad (q.2 - p.2) = v - u := by rw [hu, hv]; unfold toRad; ring
  rw [hlin]
  set s2 := Real.sin (toRad (q.1 - p.1) / 2)
  have hs1 : Real.sin ((v - u) / 2) * Real.sin ((v - u) / 2) =
      1 / 2 - Real.cos (v - u) / 2 := by
    have hsq := Real.sin_sq_eq_half_sub ((v - u) / 2)
    have h2 : 2 * ((v - u) / 2) = v - u := by ring
    rw [h2] at hsq
    nlinarith [hsq]
  have hcc : 2 * (Real.cos u * Real.cos v) = Real.cos (u - v) + Real.cos (u + v) := by
    rw [Real.cos_sub, Real.cos_add]; ring
  have hcuv : Real.cos (u - v) = Real.cos (v - u) := by
    rw [show u - v = -(v - u) by ring, Real.cos_neg]
  have hcos1 : Real.cos (u + v) ≤ 1 := Real.cos_le_one _
  have hs2 : s2 * s2 ≤ 1 := by
    nlinarith [Real.sin_le_one (toRad (q.1 - p.1) / 2),
      Real.neg_one_le_sin (toRad (q.1 - p.1) / 2)]
  nlinarith [mul_nonneg (mul_nonneg hc1 hc2) (by linarith : (0:ℝ) ≤ 1 - s2 * s2)]

/-- For `a ∈ [0, 1]`, the code's `atan2(√a, √(1-a))` is `arcsin √a`. -/
theorem jsAtan2_sqrt_eq_arcsin (a : ℝ) (h0 : 0 ≤ a) (h1 : a ≤ 1) :
    jsAtan2 (Real.sqrt a) (Real.sqrt (1 - a)) = Real.arcsin (Real.sqrt a) := by
  rcases lt_or_eq_of_le h1 with hlt | heq
  · have hx : 0 < Real.sqrt (1 - a) := Real.sqrt_pos.mpr (by linarith)
    unfold jsAtan2
    rw [if_pos hx]
    have hsa : Real.sqrt a < 1 := by
      rw [Real.sqrt_lt' (by norm_num : (0:ℝ) < 1)]
      nlinarith
    rw [Real.arcsin_eq_arctan ⟨by linarith [Real.sqrt_nonneg a], hsa⟩]
    rw [Real.sq_sqrt h0]
  · subst heq
    have h10 : (1 : ℝ) - 1 = 0 := by ring
    rw [h10, Real.sqrt_zero, Real.sqrt_one]
    unfold jsAtan2
    norm_num [Real.arcsin_one]

/-- The code's `a` term equals the spec-form haversine term (squares
written as powers, `toRad` distributed over the differences). -/
theorem haversineA_eq_spec (p q : ℝ × ℝ) :
    haversineA p q =
      Real.sin ((toRad q.2 - toRad p.2) / 2) ^ 2 +
        Real.cos (toRad p.2) * Real.cos (toRad q.2) *
          Real.sin ((toRad q.1 - toRad p.1) / 2) ^ 2 := by
  unfold haversineA
  simp only
  have h1 : toRad (q.2 - p.2) = toRad q.2 - toRad p.2 := by unfold toRad; ring
  have h2 : toRad (q.1 - p.1) = toRad q.1 - toRad p.1 := by unfold toRad; ring
  rw [h1, h2]
  ring

/-- For in-range latitudes, the distance the code computes via
`2·atan2(√a, √(1-a))` equals the great-circle distance of the spec's
haversine formula (`2·R·arcsin √a`). -/
theorem jsHaversineDistance_eq_greatCircle (p q : ℝ × ℝ)
    (hp1 : -90 ≤ p.2) (hp2 : p.2 ≤ 90) (hq1 : -90 ≤ q.2) (hq2 : q.2 ≤ 90) :
    jsHaversineDistance p q = greatCircleDistance p q := by
  unfold jsHaversineDistance greatCircleDistance
  rw [← haversineA_eq_spec]
  rw [jsAtan2_sqrt_eq_arcsin (haversineA p q)
    (haversineA_nonneg p q hp1 hp2 hq1 hq2) (haversineA_le_one p q hp1 hp2 hq1 hq2)]
  ring

/-- C2: for geographic points (latitudes within ±90°), both fare variants
return base + round(d × rate) for the haversine great-circle distance `d`
with Earth radius 6371 km — base 20 and rate 15 in the part_003 variant,
base 0 and rate 12 in the part_004 variant. -/
theorem c2_fare_is_base_plus_rounded_rate (p q : ℝ × ℝ) (n1 n2 : String)
    (hp1 : -90 ≤ p.2) (hp2 : p.2 ≤ 90) (hq1 : -90 ≤ q.2) (hq2 : q.2 ≤ 90) :
    Rider3.calculateFare p q = 20 + round (greatCircleDistance p q * 15) ∧
    Rider4.calculateFare (some ⟨n1, p⟩) (some ⟨n2, q⟩) =
      0 + round (greatCircleDistance p q * 12) := by
  have hd := jsHaversineDistance_eq_greatCircle p q hp1 hp2 hq1 hq2
  constructor
  · unfold Rider3.calculateFare
    rw [hd]
  · unfold Rider4.calculateFare
    simp only
    rw [hd]
    ring

/-- Witness for C2 at the scenario coordinates of the spec:
pickup (77.2090°E, 28.6139°N), dropoff (77.2190°E, 28.6079°N). -/
theorem c2_fare_is_base_plus_rounded_rate_witness :
    ((-90 : ℝ) ≤ 28.6139 ∧ (28.6139 : ℝ) ≤ 90 ∧ (-90 : ℝ) ≤ 28.6079 ∧ (28.6079 : ℝ) ≤ 90) ∧
    (Rider3.calculateFare (77.2090, 28.6139) (77.2190, 28.6079) =
        20 + round (greatCircleDistance (77.2090, 28.6139) (77.2190, 28.6079) * 15) ∧
      Rider4.calculateFare (some ⟨"Main Gate", (77.2090, 28.6139)⟩)
          (some ⟨"Library", (77.2190, 28.6079)⟩) =
        0 + round (greatCircleDistance (77.2090, 28.6139) (77.2190, 28.6079) * 12)) :=
  ⟨⟨by norm_num, by norm_num, by norm_num, by norm_num⟩,
    c2_fare_is_base_plus_rounded_rate (77.2090, 28.6139) (77.2190, 28.6079)
      "Main Gate" "Library" (by norm_num) (by norm_num) (by norm_num) (by norm_num)⟩

end Hailo
